import Mathlib

/-!
# Verification of the canvas group-geometry calculator

Shallow embedding of `src/main.js` (Canvas Hotkey Helper).  JavaScript
numbers are modelled as rationals extended with the IEEE special values
`NaN`, `+Infinity`, `-Infinity`; finite arithmetic is exact (rounding of
doubles is outside the model).  Field values of host objects are modelled
as either a number or a non-number value (`typeof x === 'number'` is
observable).  Fallible host calls are modelled with `Except`.
-/

/-- A JavaScript number: `NaN`, the two infinities, or a finite value
(modelled exactly as a rational). -/
inductive JSNum where
  | nan
  | posInf
  | negInf
  | fin (q : ℚ)
deriving DecidableEq

namespace JSNum

/-- JavaScript `isFinite` on a number. -/
def isFinite : JSNum → Bool
  | fin _ => true
  | _ => false

/-- IEEE negation. -/
def neg : JSNum → JSNum
  | nan => nan
  | posInf => negInf
  | negInf => posInf
  | fin q => fin (-q)

/-- IEEE addition (exact on finite values). -/
def add : JSNum → JSNum → JSNum
  | nan, _ => nan
  | _, nan => nan
  | posInf, negInf => nan
  | negInf, posInf => nan
  | posInf, _ => posInf
  | _, posInf => posInf
  | negInf, _ => negInf
  | _, negInf => negInf
  | fin a, fin b => fin (a + b)

/-- IEEE subtraction, `a - b = a + (-b)`. -/
def sub (a b : JSNum) : JSNum := add a (neg b)

/-- Doubling, the source's `padding * 2` (exact: `p * 2 = p + p` for
doubles, specials included). -/
def mulTwo : JSNum → JSNum
  | nan => nan
  | posInf => posInf
  | negInf => negInf
  | fin q => fin (2 * q)

/-- JavaScript `<` on numbers: any comparison with `NaN` is false. -/
def lt : JSNum → JSNum → Bool
  | nan, _ => false
  | _, nan => false
  | negInf, negInf => false
  | negInf, _ => true
  | _, negInf => false
  | posInf, _ => false
  | fin _, posInf => true
  | fin a, fin b => decide (a < b)

/-- JavaScript `<=` on numbers: any comparison with `NaN` is false. -/
def le : JSNum → JSNum → Bool
  | nan, _ => false
  | _, nan => false
  | negInf, _ => true
  | _, posInf => true
  | posInf, _ => false
  | _, negInf => false
  | fin a, fin b => decide (a ≤ b)

/-- `Math.min` on two numbers: `NaN` is absorbing, otherwise the order
minimum with `-Infinity < finite < +Infinity`. -/
def min2 : JSNum → JSNum → JSNum
  | nan, _ => nan
  | _, nan => nan
  | negInf, _ => negInf
  | _, negInf => negInf
  | posInf, b => b
  | a, posInf => a
  | fin a, fin b => fin (Min.min a b)

/-- `Math.max` on two numbers: `NaN` is absorbing, otherwise the order
maximum. -/
def max2 : JSNum → JSNum → JSNum
  | nan, _ => nan
  | _, nan => nan
  | posInf, _ => posInf
  | _, posInf => posInf
  | negInf, b => b
  | a, negInf => a
  | fin a, fin b => fin (Max.max a b)

/-- Variadic `Math.min(...l)`: fold of `min2` from `Math.min() = Infinity`. -/
def minList (l : List JSNum) : JSNum := l.foldl min2 posInf

/-- Variadic `Math.max(...l)`: fold of `max2` from `Math.max() = -Infinity`. -/
def maxList (l : List JSNum) : JSNum := l.foldl max2 negInf

end JSNum

/-- A JavaScript property value as far as the calculator observes it:
either a number, or some value of another type. -/
inductive JSVal where
  | num (v : JSNum)
  | nonNum
deriving DecidableEq

namespace JSVal

/-- `typeof v === 'number'`. -/
def isNum : JSVal → Bool
  | num _ => true
  | nonNum => false

/-- Coercion to number as performed by arithmetic and `Math.min`/`Math.max`
(non-numbers reached by those operators in this code would be `NaN`;
the calculator only reaches them on number-typed fields). -/
def toNum : JSVal → JSNum
  | num v => v
  | nonNum => JSNum.nan

/-- The source's `v > 0` test on a field.  For a non-number the result is
irrelevant to `isValidNode` (it is conjoined with `isNum`); `false` is the
result for `undefined`/object operands. -/
def gtZero : JSVal → Bool
  | num v => JSNum.lt (JSNum.fin 0) v
  | nonNum => false

end JSVal

/-- A canvas node record as observed by the calculator. -/
structure Node where
  x : JSVal
  y : JSVal
  width : JSVal
  height : JSVal
deriving DecidableEq

/-- Convenience constructor: a node whose four fields are finite numbers. -/
def finNode (x y w h : ℚ) : Node :=
  ⟨JSVal.num (JSNum.fin x), JSVal.num (JSNum.fin y),
   JSVal.num (JSNum.fin w), JSVal.num (JSNum.fin h)⟩

/-- `isValidNode` (src/main.js lines 100-113).  `none` models a falsy
(null/undefined) node reference. -/
def isValidNode : Option Node → Bool
  | none => false
  | some node =>
    let hasPosition := node.x.isNum && node.y.isNum
    let hasDimensions := node.width.isNum && node.height.isNum
    let hasValidDimensions := node.width.gtZero && node.height.gtZero
    hasPosition && hasDimensions && hasValidDimensions

/-- Bounding box value `{minX, minY, maxX, maxY}`. -/
structure BoundingBox where
  minX : JSNum
  minY : JSNum
  maxX : JSNum
  maxY : JSNum
deriving DecidableEq

/-- The source's `nodes.filter(node => this.isValidNode(node))`, with the
surviving (necessarily non-null) node records extracted. -/
def validFilter (nodes : List (Option Node)) : List Node :=
  nodes.filterMap (fun n => if isValidNode n then n else none)

/-- `Math.min(...validNodes.map(n => n.x))`. -/
def rawMinX (l : List Node) : JSNum := JSNum.minList (l.map (fun n => n.x.toNum))

/-- `Math.min(...validNodes.map(n => n.y))`. -/
def rawMinY (l : List Node) : JSNum := JSNum.minList (l.map (fun n => n.y.toNum))

/-- `Math.max(...validNodes.map(n => n.x + n.width))`. -/
def rawMaxX (l : List Node) : JSNum :=
  JSNum.maxList (l.map (fun n => JSNum.add n.x.toNum n.width.toNum))

/-- `Math.max(...validNodes.map(n => n.y + n.height))`. -/
def rawMaxY (l : List Node) : JSNum :=
  JSNum.maxList (l.map (fun n => JSNum.add n.y.toNum n.height.toNum))

/-- `calculateBoundingBox` (src/main.js lines 120-149).  The input is the
array of (possibly null) node references; the internal try/catch never
fires for pure field reads and is modelled in the fault-injecting variant
below. -/
def calculateBoundingBox (nodes : List (Option Node)) : Option BoundingBox :=
  if nodes.length = 0 then none
  else
    let validNodes := validFilter nodes
    if validNodes.length = 0 then none
    else
      let minX := rawMinX validNodes
      let minY := rawMinY validNodes
      let maxX := rawMaxX validNodes
      let maxY := rawMaxY validNodes
      if !minX.isFinite || !minY.isFinite || !maxX.isFinite || !maxY.isFinite then
        none
      else
        some ⟨minX, minY, maxX, maxY⟩

/-- The group rectangle handed to `canvas.createGroupNode` (pos, size,
label). -/
structure GroupRect where
  x : JSNum
  y : JSNum
  width : JSNum
  height : JSNum
  label : String
deriving DecidableEq

/-- `(bounds.maxX - bounds.minX) + (padding * 2)` (src/main.js line 219). -/
def groupWidth (bounds : BoundingBox) (padding : JSNum) : JSNum :=
  JSNum.add (JSNum.sub bounds.maxX bounds.minX) padding.mulTwo

/-- `(bounds.maxY - bounds.minY) + (padding * 2)` (src/main.js line 220). -/
def groupHeight (bounds : BoundingBox) (padding : JSNum) : JSNum :=
  JSNum.add (JSNum.sub bounds.maxY bounds.minY) padding.mulTwo

/-- The group-rectangle derivation inlined at src/main.js lines 215-239
(the spec's `computeGroupRectangle`): dimensions from the padded bounds,
the `width <= 0 || height <= 0` rejection, and the rectangle passed to
`createGroupNode`. -/
def computeGroupRectangle (bounds : BoundingBox) (padding : JSNum)
    (label : String) : Option GroupRect :=
  let width := groupWidth bounds padding
  let height := groupHeight bounds padding
  if width.le (JSNum.fin 0) || height.le (JSNum.fin 0) then none
  else
    some ⟨JSNum.sub bounds.minX padding, JSNum.sub bounds.minY padding,
          width, height, label⟩

/-- Plugin settings record (`DEFAULT_SETTINGS`, src/main.js lines 6-11).
`padding` is whatever number the stored data holds. -/
structure Settings where
  padding : JSNum
  defaultLabel : String
  showNotices : Bool
  debugMode : Bool
deriving DecidableEq

/-- The shipped defaults. -/
def DEFAULT_SETTINGS : Settings := ⟨JSNum.fin 20, "", true, false⟩

/-- The host state observed by `createGroupFromSelection`: which host
objects and methods are present, and the selected node references. -/
structure CanvasEnv where
  hasCanvasView : Bool
  hasCanvas : Bool
  hasGroupApi : Bool
  hasSelection : Bool
  selection : List (Option Node)
  hasRequestSave : Bool
deriving DecidableEq

/-- The observable outcome of one `createGroupFromSelection` run; each
constructor corresponds to one exit point of the source. -/
inductive Outcome where
  | noCanvasView
  | noCanvas
  | noGroupApi
  | noSelection
  | insufficientSelection
  | noValidNodes
  | tooFewValidNodes (count : Nat)
  | boundsUnavailable
  | invalidDimensions
  | fault (message : String)
  | success (count : Nat)
deriving DecidableEq

/-- The notice string the source shows for each outcome (via `showNotice`
or `handleError`). -/
def outcomeNotice : Outcome → String
  | Outcome.noCanvasView => "No active canvas found"
  | Outcome.noCanvas => "Canvas object not available"
  | Outcome.noGroupApi => "Canvas grouping API not available. Please update Obsidian."
  | Outcome.noSelection => "No selection available"
  | Outcome.insufficientSelection => "Please select at least 2 items to create a group"
  | Outcome.noValidNodes => "Selected items are not valid canvas nodes"
  | Outcome.tooFewValidNodes k =>
      "Only " ++ toString k ++ " valid node(s) selected. Need at least 2."
  | Outcome.boundsUnavailable => "Unable to calculate bounds for selected nodes"
  | Outcome.invalidDimensions => "Invalid group dimensions calculated"
  | Outcome.fault e => "Failed to create group from selection: " ++ e
  | Outcome.success k => "Group created with " ++ toString k ++ " node(s)"

/-- What one run did: its outcome, the rectangle handed to
`createGroupNode` (if any), and whether `requestSave` was called. -/
structure RunResult where
  outcome : Outcome
  createdGroup : Option GroupRect
  saveRequested : Bool
deriving DecidableEq

/-- Fault injection for the host calls the orchestration makes: a
`some e` entry makes the corresponding host interaction throw `e`.
`iterationFault`: `Array.from(selection)` / node getters outside
`calculateBoundingBox`; `boundsFault`: a throw inside
`calculateBoundingBox` (caught by its own try/catch); `createFault`:
`canvas.createGroupNode`; `saveFault`: `canvas.requestSave`. -/
structure Faults where
  iterationFault : Option String
  boundsFault : Option String
  createFault : Option String
  saveFault : Option String
deriving DecidableEq

/-- No host call throws. -/
def noFaults : Faults := ⟨none, none, none, none⟩

/-- `calculateBoundingBox` with its internal try/catch: a throw while
computing is caught there and yields `null` (src/main.js lines 145-148). -/
def calculateBoundingBoxF (fault : Option String)
    (nodes : List (Option Node)) : Option BoundingBox :=
  match fault with
  | some _ => none
  | none => calculateBoundingBox nodes

/-- A fault caught at the orchestration boundary: the thrown message
together with the host effects that had already happened when the throw
occurred (`canvas.createGroupNode` at line 229 runs before
`canvas.requestSave` at line 243, so a save throw leaves the group
created; `saveCalled` records that the `requestSave` call was issued). -/
structure CaughtFault where
  message : String
  createdGroup : Option GroupRect
  saveCalled : Bool
deriving DecidableEq

/-- The body of `createGroupFromSelection` (src/main.js lines 155-247)
before its outer try/catch, with host faults modelled as `Except` errors
that carry the effects already performed.  `requestSave` is only called —
and so can only throw — when the method exists (the
`typeof canvas.requestSave === 'function'` guard at line 242). -/
def createGroupFromSelectionE (settings : Settings) (env : CanvasEnv)
    (f : Faults) : Except CaughtFault RunResult :=
  if !env.hasCanvasView then Except.ok ⟨Outcome.noCanvasView, none, false⟩
  else if !env.hasCanvas then Except.ok ⟨Outcome.noCanvas, none, false⟩
  else if !env.hasGroupApi then Except.ok ⟨Outcome.noGroupApi, none, false⟩
  else if !env.hasSelection then Except.ok ⟨Outcome.noSelection, none, false⟩
  else if env.selection.length < 2 then
    Except.ok ⟨Outcome.insufficientSelection, none, false⟩
  else
    match f.iterationFault with
    | some e => Except.error ⟨e, none, false⟩
    | none =>
      let nodes := env.selection
      let validNodes := validFilter nodes
      if validNodes.length = 0 then Except.ok ⟨Outcome.noValidNodes, none, false⟩
      else if validNodes.length < 2 then
        Except.ok ⟨Outcome.tooFewValidNodes validNodes.length, none, false⟩
      else
        match calculateBoundingBoxF f.boundsFault (validNodes.map some) with
        | none => Except.ok ⟨Outcome.boundsUnavailable, none, false⟩
        | some bounds =>
          let padding := settings.padding
          match computeGroupRectangle bounds padding settings.defaultLabel with
          | none => Except.ok ⟨Outcome.invalidDimensions, none, false⟩
          | some rect =>
            match f.createFault with
            | some e => Except.error ⟨e, none, false⟩
            | none =>
              if env.hasRequestSave then
                match f.saveFault with
                | some e => Except.error ⟨e, some rect, true⟩
                | none =>
                  Except.ok ⟨Outcome.success validNodes.length, some rect, true⟩
              else
                Except.ok ⟨Outcome.success validNodes.length, some rect, false⟩

/-- `createGroupFromSelection` with its outer try/catch (src/main.js
lines 249-251): any fault is caught, surfaced via `handleError` as a
failure notice, and the function returns normally; the host effects that
happened before the throw stand. -/
def createGroupFromSelectionCaught (settings : Settings) (env : CanvasEnv)
    (f : Faults) : RunResult :=
  match createGroupFromSelectionE settings env f with
  | Except.ok r => r
  | Except.error fault =>
      ⟨Outcome.fault fault.message, fault.createdGroup, fault.saveCalled⟩

/-- The fault-free run of `createGroupFromSelection`. -/
def createGroupFromSelection (settings : Settings) (env : CanvasEnv) : RunResult :=
  createGroupFromSelectionCaught settings env noFaults

/-- The catch boundary as an `Except` computation: the handler turns every
error into a normal return.  `createGroupTop` is what command dispatch
observes. -/
def createGroupTop (settings : Settings) (env : CanvasEnv) (f : Faults) :
    Except CaughtFault RunResult :=
  match createGroupFromSelectionE settings env f with
  | Except.ok r => Except.ok r
  | Except.error fault =>
      Except.ok ⟨Outcome.fault fault.message, fault.createdGroup, fault.saveCalled⟩

/-- The body of the command `checkCallback` (src/main.js lines 32-49):
availability check when `checking`, otherwise execute the command. -/
def checkCallbackBody (checking : Bool) (settings : Settings)
    (env : CanvasEnv) (f : Faults) : Except CaughtFault Bool :=
  if checking then Except.ok env.hasCanvasView
  else
    match createGroupTop settings env f with
    | Except.ok _ => Except.ok true
    | Except.error e => Except.error e

/-- The command `checkCallback` with its try/catch: errors become a
logged failure and a normal `false` return. -/
def checkCallback (checking : Bool) (settings : Settings) (env : CanvasEnv)
    (f : Faults) : Except CaughtFault Bool :=
  match checkCallbackBody checking settings env f with
  | Except.ok b => Except.ok b
  | Except.error _ => Except.ok false

/-- A field is a finite number (`typeof === 'number'` and `isFinite`). -/
def JSVal.isFiniteNum : JSVal → Bool
  | JSVal.num (JSNum.fin _) => true
  | _ => false

/-- The spec's wording of node validity, for comparison with the source's
`isValidNode`: non-null with finite numeric `x`,`y`,`width`,`height` and
`width > 0`, `height > 0`. -/
def specValidNode : Option Node → Bool
  | none => false
  | some node =>
    node.x.isFiniteNum && node.y.isFiniteNum &&
    node.width.isFiniteNum && node.height.isFiniteNum &&
    node.width.gtZero && node.height.gtZero

/-- Addresses of node records in the host's heap. -/
abbrev NodeId := Nat

/-- The part of the host heap the calculator touches: the node records. -/
abbrev NodeStore := NodeId → Option Node

/-- Dereference a (possibly null) node reference. -/
def readNode (σ : NodeStore) (i : Option NodeId) : Option Node :=
  i.bind σ

/-- Store-passing `isValidNode`: reads the fields of the referenced record,
writes nothing. -/
def isValidNodeS (σ : NodeStore) (i : Option NodeId) : Bool × NodeStore :=
  (isValidNode (readNode σ i), σ)

/-- Store-passing `calculateBoundingBox` over a selection of node ids. -/
def calculateBoundingBoxS (σ : NodeStore) (ids : List (Option NodeId)) :
    Option BoundingBox × NodeStore :=
  (calculateBoundingBox (ids.map (readNode σ)), σ)

/-- The host state with the selection as node references into the store. -/
structure CanvasEnvS where
  hasCanvasView : Bool
  hasCanvas : Bool
  hasGroupApi : Bool
  hasSelection : Bool
  selectionIds : List (Option NodeId)
  hasRequestSave : Bool

/-- Store-passing `createGroupFromSelection`: dereferences the selection,
runs the pipeline, and returns the store it finished with (no step of the
source writes a node field, so no step of the translation updates σ). -/
def createGroupFromSelectionS (settings : Settings) (envS : CanvasEnvS)
    (σ : NodeStore) : RunResult × NodeStore :=
  (createGroupFromSelection settings
    ⟨envS.hasCanvasView, envS.hasCanvas, envS.hasGroupApi, envS.hasSelection,
     envS.selectionIds.map (readNode σ), envS.hasRequestSave⟩, σ)

/-! ## Concrete values used in the examples -/

/-- A node that passes `isValidNode` although its `x` is `NaN`
(`typeof NaN === 'number'`). -/
def nanXNode : Node :=
  ⟨JSVal.num JSNum.nan, JSVal.num (JSNum.fin 0),
   JSVal.num (JSNum.fin 1), JSVal.num (JSNum.fin 1)⟩

/-- The selection of the spec's end-to-end example. -/
def exampleSelection : List (Option Node) :=
  [some (finNode 0 0 50 50), some (finNode 100 0 50 50), some (finNode 0 100 50 50)]

/-- Host state for the end-to-end example. -/
def exampleEnv : CanvasEnv := ⟨true, true, true, true, exampleSelection, true⟩

/-- Settings with padding 10 for the end-to-end example. -/
def exampleSettings : Settings := ⟨JSNum.fin 10, "", true, false⟩

/-- A well-formed host state with two valid nodes. -/
def twoNodeEnv : CanvasEnv :=
  ⟨true, true, true, true, [some (finNode 0 0 1 1), some (finNode 2 2 1 1)], true⟩

/-- A host whose selection iteration throws. -/
def iterFaults : Faults := ⟨some "boom", none, none, none⟩

/-- A host whose `requestSave` call throws. -/
def saveFaults : Faults := ⟨none, none, none, some "savefail"⟩

/-! ## Lemmas about the numeric folds -/

theorem min2_posInf_left (a : JSNum) : JSNum.min2 JSNum.posInf a = a := by
  cases a <;> rfl

theorem min2_nan_left (a : JSNum) : JSNum.min2 JSNum.nan a = JSNum.nan := by
  cases a <;> rfl

theorem min2_comm (a b : JSNum) : JSNum.min2 a b = JSNum.min2 b a := by
  cases a <;> cases b <;> simp [JSNum.min2, min_comm]

theorem max2_comm (a b : JSNum) : JSNum.max2 a b = JSNum.max2 b a := by
  cases a <;> cases b <;> simp [JSNum.max2, max_comm]

theorem min2_assoc (a b c : JSNum) :
    JSNum.min2 (JSNum.min2 a b) c = JSNum.min2 a (JSNum.min2 b c) := by
  cases a <;> cases b <;> cases c <;> simp [JSNum.min2, min_assoc]

theorem max2_assoc (a b c : JSNum) :
    JSNum.max2 (JSNum.max2 a b) c = JSNum.max2 a (JSNum.max2 b c) := by
  cases a <;> cases b <;> cases c <;> simp [JSNum.max2, max_assoc]

instance : RightCommutative JSNum.min2 :=
  ⟨fun b a₁ a₂ => by rw [min2_assoc, min2_comm a₁ a₂, ← min2_assoc]⟩

instance : RightCommutative JSNum.max2 :=
  ⟨fun b a₁ a₂ => by rw [max2_assoc, max2_comm a₁ a₂, ← max2_assoc]⟩

theorem max2_choice (a b : JSNum) : JSNum.max2 a b = a ∨ JSNum.max2 a b = b := by
  cases a <;> cases b <;>
    first
      | exact Or.inl rfl
      | exact Or.inr rfl
      | (rename_i p q
         rcases le_total p q with h | h
         · exact Or.inr (by simp [JSNum.max2, max_eq_right h])
         · exact Or.inl (by simp [JSNum.max2, max_eq_left h]))

theorem foldl_min2_nan (l : List JSNum) :
    l.foldl JSNum.min2 JSNum.nan = JSNum.nan := by
  induction l with
  | nil => rfl
  | cons a t ih => simpa [min2_nan_left] using ih

theorem foldl_min2_negInf (l : List JSNum) :
    l.foldl JSNum.min2 JSNum.negInf = JSNum.negInf ∨
    l.foldl JSNum.min2 JSNum.negInf = JSNum.nan := by
  induction l with
  | nil => exact Or.inl rfl
  | cons a t ih =>
    cases a with
    | nan => exact Or.inr (by simpa [JSNum.min2] using foldl_min2_nan t)
    | posInf => simpa [JSNum.min2] using ih
    | negInf => simpa [JSNum.min2] using ih
    | fin q => simpa [JSNum.min2] using ih

theorem foldl_min2_acc_ge :
    ∀ (l : List JSNum) (p q : ℚ),
      l.foldl JSNum.min2 (JSNum.fin p) = JSNum.fin q → q ≤ p := by
  intro l
  induction l with
  | nil => intro p q h; injection h with h; exact le_of_eq h.symm
  | cons a t ih =>
    intro p q h
    rw [List.foldl_cons] at h
    cases a with
    | nan =>
      rw [show JSNum.min2 (JSNum.fin p) JSNum.nan = JSNum.nan from rfl] at h
      rw [foldl_min2_nan] at h; exact absurd h (by simp)
    | negInf =>
      rw [show JSNum.min2 (JSNum.fin p) JSNum.negInf = JSNum.negInf from rfl] at h
      rcases foldl_min2_negInf t with h2 | h2 <;> rw [h2] at h <;>
        exact absurd h (by simp)
    | posInf =>
      rw [show JSNum.min2 (JSNum.fin p) JSNum.posInf = JSNum.fin p from rfl] at h
      exact ih p q h
    | fin r =>
      rw [show JSNum.min2 (JSNum.fin p) (JSNum.fin r) = JSNum.fin (Min.min p r) from rfl] at h
      exact le_trans (ih _ q h) (min_le_left p r)

theorem foldl_min2_elem_ge :
    ∀ (l : List JSNum) (acc : JSNum) (q : ℚ),
      l.foldl JSNum.min2 acc = JSNum.fin q →
      ∀ a ∈ l, ∀ r : ℚ, a = JSNum.fin r → q ≤ r := by
  intro l
  induction l with
  | nil => intro acc q _ a ha; exact absurd ha (by simp)
  | cons b t ih =>
    intro acc q h a ha r har
    rw [List.foldl_cons] at h
    rcases List.mem_cons.mp ha with rfl | ha
    · subst har
      cases acc with
      | nan => rw [min2_nan_left] at h; rw [foldl_min2_nan] at h; exact absurd h (by simp)
      | negInf =>
        rw [show JSNum.min2 JSNum.negInf (JSNum.fin r) = JSNum.negInf from rfl] at h
        rcases foldl_min2_negInf t with h2 | h2 <;> rw [h2] at h <;>
          exact absurd h (by simp)
      | posInf =>
        rw [min2_posInf_left] at h
        exact foldl_min2_acc_ge t r q h
      | fin p =>
        rw [show JSNum.min2 (JSNum.fin p) (JSNum.fin r) = JSNum.fin (Min.min p r) from rfl] at h
        exact le_trans (foldl_min2_acc_ge t _ q h) (min_le_right p r)
    · exact ih (JSNum.min2 acc b) q h a ha r har

theorem foldl_min2_mem_nan (l : List JSNum) (hl : JSNum.nan ∈ l) :
    ∀ acc, l.foldl JSNum.min2 acc = JSNum.nan := by
  induction l with
  | nil => exact absurd hl (by simp)
  | cons a t ih =>
    intro acc
    rcases List.mem_cons.mp hl with rfl | h
    · have : JSNum.min2 acc JSNum.nan = JSNum.nan := by cases acc <;> rfl
      simpa [this] using foldl_min2_nan t
    · exact ih h _

theorem foldl_min2_mem_negInf (l : List JSNum) (hl : JSNum.negInf ∈ l) :
    ∀ acc, l.foldl JSNum.min2 acc = JSNum.negInf ∨
      l.foldl JSNum.min2 acc = JSNum.nan := by
  induction l with
  | nil => exact absurd hl (by simp)
  | cons a t ih =>
    intro acc
    rcases List.mem_cons.mp hl with rfl | h
    · cases acc with
      | nan => exact Or.inr (by simpa [min2_nan_left] using foldl_min2_nan t)
      | negInf => simpa [JSNum.min2] using foldl_min2_negInf t
      | posInf => simpa [JSNum.min2] using foldl_min2_negInf t
      | fin p => simpa [JSNum.min2] using foldl_min2_negInf t
    · exact ih h _

theorem isValidNode_some_iff (n : Node) :
    isValidNode (some n) = true ↔
      n.x.isNum = true ∧ n.y.isNum = true ∧ n.width.isNum = true ∧
      n.height.isNum = true ∧ n.width.gtZero = true ∧ n.height.gtZero = true := by
  simp only [isValidNode, Bool.and_eq_true]
  tauto

theorem calcBB_eq_none_of_empty {nodes : List (Option Node)}
    (h : validFilter nodes = []) : calculateBoundingBox nodes = none := by
  rw [calculateBoundingBox]
  by_cases h0 : nodes.length = 0
  · simp [h0]
  · simp [h0, h]

theorem bnot_eq_false {b : Bool} (h : (!b) = false) : b = true := by
  cases b
  · exact absurd h (by simp)
  · rfl

theorem calcBB_some_inv {nodes : List (Option Node)} {b : BoundingBox}
    (h : calculateBoundingBox nodes = some b) :
    validFilter nodes ≠ [] ∧
    b = ⟨rawMinX (validFilter nodes), rawMinY (validFilter nodes),
         rawMaxX (validFilter nodes), rawMaxY (validFilter nodes)⟩ ∧
    (rawMinX (validFilter nodes)).isFinite = true ∧
    (rawMinY (validFilter nodes)).isFinite = true ∧
    (rawMaxX (validFilter nodes)).isFinite = true ∧
    (rawMaxY (validFilter nodes)).isFinite = true := by
  simp only [calculateBoundingBox] at h
  split_ifs at h with h0 h1 h2
  have h2f := Bool.eq_false_iff.mpr h2
  rcases Bool.or_eq_false_iff.mp h2f with ⟨hABC, hD⟩
  rcases Bool.or_eq_false_iff.mp hABC with ⟨hAB, hC⟩
  rcases Bool.or_eq_false_iff.mp hAB with ⟨hA, hB⟩
  exact ⟨fun hnil => h1 (by rw [hnil]; rfl), (Option.some_inj.mp h).symm,
         bnot_eq_false hA, bnot_eq_false hB,
         bnot_eq_false hC, bnot_eq_false hD⟩

theorem calcBB_eq_some {nodes : List (Option Node)}
    (hne : validFilter nodes ≠ [])
    (hA : (rawMinX (validFilter nodes)).isFinite = true)
    (hB : (rawMinY (validFilter nodes)).isFinite = true)
    (hC : (rawMaxX (validFilter nodes)).isFinite = true)
    (hD : (rawMaxY (validFilter nodes)).isFinite = true) :
    calculateBoundingBox nodes =
      some ⟨rawMinX (validFilter nodes), rawMinY (validFilter nodes),
            rawMaxX (validFilter nodes), rawMaxY (validFilter nodes)⟩ := by
  simp only [calculateBoundingBox]
  split_ifs with h0 h1 h2
  · exfalso
    apply hne
    have : nodes = [] := List.length_eq_zero.mp h0
    rw [this]; rfl
  · exact absurd (List.length_eq_zero.mp h1) hne
  · exfalso
    rw [hA, hB, hC, hD] at h2
    simp at h2
  · rfl

theorem createGroup_insufficient (s : Settings) (env : CanvasEnv)
    (hV : env.hasCanvasView = true) (hC : env.hasCanvas = true)
    (hG : env.hasGroupApi = true) (hS : env.hasSelection = true)
    (hlt : env.selection.length < 2) :
    createGroupFromSelection s env =
      ⟨Outcome.insufficientSelection, none, false⟩ := by
  simp [createGroupFromSelection, createGroupFromSelectionCaught,
        createGroupFromSelectionE, noFaults, hV, hC, hG, hS, hlt]

theorem createGroup_noValid (s : Settings) (env : CanvasEnv)
    (hV : env.hasCanvasView = true) (hC : env.hasCanvas = true)
    (hG : env.hasGroupApi = true) (hS : env.hasSelection = true)
    (hge : ¬env.selection.length < 2)
    (h0 : (validFilter env.selection).length = 0) :
    createGroupFromSelection s env = ⟨Outcome.noValidNodes, none, false⟩ := by
  simp [createGroupFromSelection, createGroupFromSelectionCaught,
        createGroupFromSelectionE, noFaults, hV, hC, hG, hS, hge, h0]

theorem createGroup_tooFew (s : Settings) (env : CanvasEnv)
    (hV : env.hasCanvasView = true) (hC : env.hasCanvas = true)
    (hG : env.hasGroupApi = true) (hS : env.hasSelection = true)
    (hge : ¬env.selection.length < 2)
    (h0 : ¬(validFilter env.selection).length = 0)
    (h1 : (validFilter env.selection).length < 2) :
    createGroupFromSelection s env =
      ⟨Outcome.tooFewValidNodes (validFilter env.selection).length, none, false⟩ := by
  simp [createGroupFromSelection, createGroupFromSelectionCaught,
        createGroupFromSelectionE, noFaults, hV, hC, hG, hS, hge, h0, h1]

/-- Exhaustive shape of one fault-free `createGroupFromSelectionE` run:
a success carrying a rectangle, or a rejection that created nothing (a
fault-free run never throws). -/
theorem createGroupE_pure_cases (s : Settings) (env : CanvasEnv) :
    (∃ k rect save, createGroupFromSelectionE s env noFaults =
        Except.ok ⟨Outcome.success k, some rect, save⟩) ∨
    (∃ o, createGroupFromSelectionE s env noFaults = Except.ok ⟨o, none, false⟩ ∧
        ∀ k, o ≠ Outcome.success k) := by
  simp only [createGroupFromSelectionE, noFaults, calculateBoundingBoxF]
  repeat' split
  all_goals
    first
      | exact Or.inl ⟨_, _, _, rfl⟩
      | exact Or.inr ⟨_, rfl, fun k h => Outcome.noConfusion h⟩

/-- On every non-success run nothing is created and no save is requested. -/
theorem createGroup_frame (s : Settings) (env : CanvasEnv)
    (hns : ∀ k, (createGroupFromSelection s env).outcome ≠ Outcome.success k) :
    (createGroupFromSelection s env).createdGroup = none ∧
    (createGroupFromSelection s env).saveRequested = false := by
  rcases createGroupE_pure_cases s env with ⟨k, rect, save, h⟩ | ⟨o, h, _⟩
  · exfalso
    exact hns k (by
      simp [createGroupFromSelection, createGroupFromSelectionCaught, h])
  · constructor <;>
      simp [createGroupFromSelection, createGroupFromSelectionCaught, h]

theorem calcBB_eq_none_of_nonfinite {nodes : List (Option Node)}
    (hx : (rawMinX (validFilter nodes)).isFinite = false ∨
          (rawMinY (validFilter nodes)).isFinite = false ∨
          (rawMaxX (validFilter nodes)).isFinite = false ∨
          (rawMaxY (validFilter nodes)).isFinite = false) :
    calculateBoundingBox nodes = none := by
  simp only [calculateBoundingBox]
  split_ifs with h0 h1 h2
  · rfl
  · rfl
  · rfl
  · exfalso
    apply h2
    rcases hx with h | h | h | h <;> simp [h]

/-- C1: `calculateBoundingBox` returns null exactly when the subsequence
of valid nodes (per `isValidNode`) is empty — which covers the empty
input and invalid-only input — or one of the four computed bounds is
non-finite; any returned box consists of the minimum of the valid nodes'
`x`, the minimum of their `y`, the maximum of their `x + width`, and the
maximum of their `y + height`. -/
theorem claim1_calculateBoundingBox_characterization (nodes : List (Option Node)) :
    (calculateBoundingBox nodes = none ↔
      validFilter nodes = [] ∨
      (rawMinX (validFilter nodes)).isFinite = false ∨
      (rawMinY (validFilter nodes)).isFinite = false ∨
      (rawMaxX (validFilter nodes)).isFinite = false ∨
      (rawMaxY (validFilter nodes)).isFinite = false) ∧
    (∀ b, calculateBoundingBox nodes = some b →
      b.minX = rawMinX (validFilter nodes) ∧
      b.minY = rawMinY (validFilter nodes) ∧
      b.maxX = rawMaxX (validFilter nodes) ∧
      b.maxY = rawMaxY (validFilter nodes)) := by
  constructor
  · constructor
    · intro h
      by_contra hcon
      push_neg at hcon
      obtain ⟨hne, hA, hB, hC, hD⟩ := hcon
      have hsome := calcBB_eq_some hne
        (Bool.eq_true_of_not_eq_false hA) (Bool.eq_true_of_not_eq_false hB)
        (Bool.eq_true_of_not_eq_false hC) (Bool.eq_true_of_not_eq_false hD)
      rw [h] at hsome
      exact Option.noConfusion hsome
    · intro h
      rcases h with h | h
      · exact calcBB_eq_none_of_empty h
      · exact calcBB_eq_none_of_nonfinite h
  · intro b h
    obtain ⟨_, hb, _, _, _, _⟩ := calcBB_some_inv h
    exact ⟨by rw [hb], by rw [hb], by rw [hb], by rw [hb]⟩

/-- Witness for C1 at a concrete input. -/
theorem claim1_witness :
    (⟨JSNum.fin 0, JSNum.fin 0, JSNum.fin 2, JSNum.fin 3⟩ : BoundingBox).minX =
      rawMinX (validFilter [some (finNode 0 0 2 3)]) ∧
    (⟨JSNum.fin 0, JSNum.fin 0, JSNum.fin 2, JSNum.fin 3⟩ : BoundingBox).minY =
      rawMinY (validFilter [some (finNode 0 0 2 3)]) ∧
    (⟨JSNum.fin 0, JSNum.fin 0, JSNum.fin 2, JSNum.fin 3⟩ : BoundingBox).maxX =
      rawMaxX (validFilter [some (finNode 0 0 2 3)]) ∧
    (⟨JSNum.fin 0, JSNum.fin 0, JSNum.fin 2, JSNum.fin 3⟩ : BoundingBox).maxY =
      rawMaxY (validFilter [some (finNode 0 0 2 3)]) :=
  (claim1_calculateBoundingBox_characterization [some (finNode 0 0 2 3)]).2
    ⟨JSNum.fin 0, JSNum.fin 0, JSNum.fin 2, JSNum.fin 3⟩ (by
      norm_num [calculateBoundingBox, validFilter, isValidNode, finNode, JSVal.isNum,
        JSVal.gtZero, JSVal.toNum, JSNum.lt, rawMinX, rawMinY, rawMaxX, rawMaxY,
        JSNum.minList, JSNum.maxList, JSNum.min2, JSNum.max2, JSNum.add,
        JSNum.isFinite, List.filterMap, List.foldl, min_def, max_def])

/-- C2 as stated is false on the code: `isValidNode` does not check
finiteness (`typeof NaN === 'number'`), so a node with `x = NaN` and
positive finite dimensions is accepted although the claimed
characterization rejects it. -/
theorem claim2_counterexample :
    isValidNode (some nanXNode) = true ∧ specValidNode (some nanXNode) = false := by
  constructor <;>
    norm_num [isValidNode, specValidNode, nanXNode, JSVal.isNum, JSVal.isFiniteNum,
      JSVal.gtZero, JSNum.lt]

/-- C2 amended: `isValidNode` returns true iff the value is non-null and
its `x`, `y`, `width`, `height` are all number-typed (`NaN` and
`±Infinity` included) with `width > 0` and `height > 0` under JavaScript
comparison; finiteness is not required. -/
theorem claim2_isValidNode_amended (v : Option Node) :
    isValidNode v = true ↔
      ∃ n, v = some n ∧ n.x.isNum = true ∧ n.y.isNum = true ∧
        n.width.isNum = true ∧ n.height.isNum = true ∧
        n.width.gtZero = true ∧ n.height.gtZero = true := by
  cases v with
  | none => simp [isValidNode]
  | some n =>
    rw [isValidNode_some_iff]
    constructor
    · intro h
      exact ⟨n, rfl, h.1, h.2.1, h.2.2.1, h.2.2.2.1, h.2.2.2.2.1, h.2.2.2.2.2⟩
    · rintro ⟨m, hm, h⟩
      cases Option.some_inj.mp hm
      exact h

/-- C3: with the host objects present, a selection of size < 2 is
rejected as insufficient regardless of its contents (so before any node
validation or geometry computation can matter); with ≥ 2 selected but
fewer than 2 valid nodes the run is rejected on the no-valid-nodes path;
every non-success run creates no group and requests no save; and the four
rejection paths carry pairwise distinct reason strings. -/
theorem claim3_rejection_paths :
    (∀ (s : Settings) (env : CanvasEnv),
       env.hasCanvasView = true → env.hasCanvas = true →
       env.hasGroupApi = true → env.hasSelection = true →
       env.selection.length < 2 →
       createGroupFromSelection s env =
         ⟨Outcome.insufficientSelection, none, false⟩) ∧
    (∀ (s : Settings) (env : CanvasEnv),
       env.hasCanvasView = true → env.hasCanvas = true →
       env.hasGroupApi = true → env.hasSelection = true →
       ¬env.selection.length < 2 →
       (validFilter env.selection).length < 2 →
       (createGroupFromSelection s env).createdGroup = none ∧
       (createGroupFromSelection s env).saveRequested = false ∧
       ((createGroupFromSelection s env).outcome = Outcome.noValidNodes ∨
        (createGroupFromSelection s env).outcome =
          Outcome.tooFewValidNodes (validFilter env.selection).length)) ∧
    (∀ (s : Settings) (env : CanvasEnv),
       (∀ k, (createGroupFromSelection s env).outcome ≠ Outcome.success k) →
       (createGroupFromSelection s env).createdGroup = none ∧
       (createGroupFromSelection s env).saveRequested = false) ∧
    List.Pairwise (fun a b => a ≠ b)
      [outcomeNotice Outcome.insufficientSelection,
       outcomeNotice Outcome.noValidNodes,
       outcomeNotice (Outcome.tooFewValidNodes 1),
       outcomeNotice Outcome.boundsUnavailable,
       outcomeNotice Outcome.invalidDimensions] := by
  refine ⟨?_, ?_, ?_, ?_⟩
  · intro s env hV hC hG hS hlt
    exact createGroup_insufficient s env hV hC hG hS hlt
  · intro s env hV hC hG hS hge hlt2
    by_cases h0 : (validFilter env.selection).length = 0
    · rw [createGroup_noValid s env hV hC hG hS hge h0]
      exact ⟨rfl, rfl, Or.inl rfl⟩
    · rw [createGroup_tooFew s env hV hC hG hS hge h0 hlt2]
      exact ⟨rfl, rfl, Or.inr rfl⟩
  · intro s env hns
    exact createGroup_frame s env hns
  · decide

/-- Witness for C3: a singleton selection is rejected as insufficient. -/
theorem claim3_witness :
    createGroupFromSelection DEFAULT_SETTINGS
      ⟨true, true, true, true, [some (finNode 0 0 1 1)], true⟩ =
    ⟨Outcome.insufficientSelection, none, false⟩ :=
  claim3_rejection_paths.1 DEFAULT_SETTINGS
    ⟨true, true, true, true, [some (finNode 0 0 1 1)], true⟩
    rfl rfl rfl rfl (by norm_num)

/-- C4: the group rectangle is `x = minX - padding`, `y = minY - padding`,
`width = (maxX - minX) + 2*padding`, `height = (maxY - minY) + 2*padding`,
and the derivation is rejected exactly when `width <= 0 || height <= 0`
(JavaScript comparison); padding 20 on bounds (0,0,100,50) yields the
rectangle (-20,-20,140,90), and padding -1000 on those small bounds is
rejected. -/
theorem claim4_computeGroupRectangle (bounds : BoundingBox) (padding : JSNum)
    (label : String) :
    (computeGroupRectangle bounds padding label = none ↔
      JSNum.le (groupWidth bounds padding) (JSNum.fin 0) = true ∨
      JSNum.le (groupHeight bounds padding) (JSNum.fin 0) = true) ∧
    (∀ r, computeGroupRectangle bounds padding label = some r →
      r = ⟨JSNum.sub bounds.minX padding, JSNum.sub bounds.minY padding,
           groupWidth bounds padding, groupHeight bounds padding, label⟩) ∧
    computeGroupRectangle ⟨JSNum.fin 0, JSNum.fin 0, JSNum.fin 100, JSNum.fin 50⟩
        (JSNum.fin 20) "" =
      some ⟨JSNum.fin (-20), JSNum.fin (-20), JSNum.fin 140, JSNum.fin 90, ""⟩ ∧
    computeGroupRectangle ⟨JSNum.fin 0, JSNum.fin 0, JSNum.fin 100, JSNum.fin 50⟩
        (JSNum.fin (-1000)) "" = none := by
  refine ⟨?_, ?_, ?_, ?_⟩
  · simp only [computeGroupRectangle]
    split_ifs with hc
    · exact iff_of_true rfl (by simpa using hc)
    · exact iff_of_false (by simp) (fun hab => hc (by simpa using hab))
  · intro r h
    simp only [computeGroupRectangle] at h
    split_ifs at h
    exact (Option.some_inj.mp h).symm
  · norm_num [computeGroupRectangle, groupWidth, groupHeight, JSNum.sub,
      JSNum.neg, JSNum.mulTwo, JSNum.add, JSNum.le]
  · norm_num [computeGroupRectangle, groupWidth, groupHeight, JSNum.sub,
      JSNum.neg, JSNum.mulTwo, JSNum.add, JSNum.le]

/-- Witness for C4 at the concrete bounds of the spec's example. -/
theorem claim4_witness :
    (⟨JSNum.fin (-20), JSNum.fin (-20), JSNum.fin 140, JSNum.fin 90, ""⟩ : GroupRect) =
      ⟨JSNum.sub (JSNum.fin 0) (JSNum.fin 20), JSNum.sub (JSNum.fin 0) (JSNum.fin 20),
       groupWidth ⟨JSNum.fin 0, JSNum.fin 0, JSNum.fin 100, JSNum.fin 50⟩ (JSNum.fin 20),
       groupHeight ⟨JSNum.fin 0, JSNum.fin 0, JSNum.fin 100, JSNum.fin 50⟩ (JSNum.fin 20),
       ""⟩ :=
  (claim4_computeGroupRectangle ⟨JSNum.fin 0, JSNum.fin 0, JSNum.fin 100, JSNum.fin 50⟩
      (JSNum.fin 20) "").2.1
    ⟨JSNum.fin (-20), JSNum.fin (-20), JSNum.fin 140, JSNum.fin 90, ""⟩
    (by norm_num [computeGroupRectangle, groupWidth, groupHeight, JSNum.sub,
      JSNum.neg, JSNum.mulTwo, JSNum.add, JSNum.le])

/-- C6 as stated is false on the code: mutating `x` of a valid node to 0
is claimed to flip `isValidNode` to false, but positions are not
sign-checked, so the mutated node is still accepted. -/
theorem claim6_counterexample :
    isValidNode (some (finNode 5 5 10 10)) = true ∧
    isValidNode (some (finNode 0 5 10 10)) = true := by
  constructor <;>
    norm_num [isValidNode, finNode, JSVal.isNum, JSVal.gtZero, JSNum.lt]

/-- C6 amended: a node with number-typed fields, `width > 0` and
`height > 0` is valid; mutating `width` or `height` to 0, to a negative
number, or to `NaN` flips validity to false, while mutating `x` or `y` to
any number value (0, negatives, `NaN`, `±Infinity` included) or mutating
`width`/`height` to `+Infinity` leaves the node valid. -/
theorem claim6_isValidNode_mutations (x y w h : ℚ) (hw : 0 < w) (hh : 0 < h) :
    isValidNode (some (finNode x y w h)) = true ∧
    (∀ v : JSNum, isValidNode (some ⟨JSVal.num v, JSVal.num (JSNum.fin y),
        JSVal.num (JSNum.fin w), JSVal.num (JSNum.fin h)⟩) = true) ∧
    (∀ v : JSNum, isValidNode (some ⟨JSVal.num (JSNum.fin x), JSVal.num v,
        JSVal.num (JSNum.fin w), JSVal.num (JSNum.fin h)⟩) = true) ∧
    (∀ w' : ℚ, w' ≤ 0 → isValidNode (some (finNode x y w' h)) = false) ∧
    isValidNode (some ⟨JSVal.num (JSNum.fin x), JSVal.num (JSNum.fin y),
        JSVal.num JSNum.nan, JSVal.num (JSNum.fin h)⟩) = false ∧
    isValidNode (some ⟨JSVal.num (JSNum.fin x), JSVal.num (JSNum.fin y),
        JSVal.num JSNum.posInf, JSVal.num (JSNum.fin h)⟩) = true ∧
    (∀ h' : ℚ, h' ≤ 0 → isValidNode (some (finNode x y w h')) = false) ∧
    isValidNode (some ⟨JSVal.num (JSNum.fin x), JSVal.num (JSNum.fin y),
        JSVal.num (JSNum.fin w), JSVal.num JSNum.nan⟩) = false ∧
    isValidNode (some ⟨JSVal.num (JSNum.fin x), JSVal.num (JSNum.fin y),
        JSVal.num (JSNum.fin w), JSVal.num JSNum.posInf⟩) = true := by
  refine ⟨?_, ?_, ?_, ?_, ?_, ?_, ?_, ?_, ?_⟩
  · simp [isValidNode, finNode, JSVal.isNum, JSVal.gtZero, JSNum.lt, hw, hh]
  · intro v
    simp [isValidNode, finNode, JSVal.isNum, JSVal.gtZero, JSNum.lt, hw, hh]
  · intro v
    simp [isValidNode, finNode, JSVal.isNum, JSVal.gtZero, JSNum.lt, hw, hh]
  · intro w' hw'
    simp [isValidNode, finNode, JSVal.isNum, JSVal.gtZero, JSNum.lt, not_lt.mpr hw']
  · simp [isValidNode, finNode, JSVal.isNum, JSVal.gtZero, JSNum.lt]
  · simp [isValidNode, finNode, JSVal.isNum, JSVal.gtZero, JSNum.lt, hw, hh]
  · intro h' hh'
    simp [isValidNode, finNode, JSVal.isNum, JSVal.gtZero, JSNum.lt, not_lt.mpr hh']
  · simp [isValidNode, finNode, JSVal.isNum, JSVal.gtZero, JSNum.lt]
  · simp [isValidNode, finNode, JSVal.isNum, JSVal.gtZero, JSNum.lt, hw, hh]

/-- Witness for C6 at a concrete node. -/
theorem claim6_witness :
    isValidNode (some (finNode 1 2 3 4)) = true :=
  (claim6_isValidNode_mutations 1 2 3 4 (by norm_num) (by norm_num)).1

/-- C7 as stated is false on the code: on the example selection with
padding 10 the rectangle handed to group creation is not the claimed
160 by 160 one (padding is added twice per axis, giving 170). -/
theorem claim7_counterexample :
    (createGroupFromSelection exampleSettings exampleEnv).createdGroup ≠
      some ⟨JSNum.fin (-10), JSNum.fin (-10), JSNum.fin 160, JSNum.fin 160, ""⟩ := by
  norm_num [createGroupFromSelection, createGroupFromSelectionCaught,
    createGroupFromSelectionE, noFaults, calculateBoundingBoxF,
    exampleSettings, exampleEnv, exampleSelection,
    computeGroupRectangle, groupWidth, groupHeight, JSNum.sub, JSNum.neg,
    JSNum.mulTwo, JSNum.le,
    calculateBoundingBox, validFilter, isValidNode, finNode, JSVal.isNum,
    JSVal.gtZero, JSVal.toNum, JSNum.lt, rawMinX, rawMinY, rawMaxX, rawMaxY,
    JSNum.minList, JSNum.maxList, JSNum.min2, JSNum.max2, JSNum.add,
    JSNum.isFinite, List.filterMap, List.foldl, min_def, max_def]

/-- C7 amended: on the example selection the bounding box is
(0, 0, 150, 150) and, with padding 10, the rectangle handed to group
creation is x = -10, y = -10, width = 170, height = 170; the run succeeds
with 3 nodes and requests a save. -/
theorem claim7_end_to_end :
    calculateBoundingBox exampleSelection =
      some ⟨JSNum.fin 0, JSNum.fin 0, JSNum.fin 150, JSNum.fin 150⟩ ∧
    (createGroupFromSelection exampleSettings exampleEnv).createdGroup =
      some ⟨JSNum.fin (-10), JSNum.fin (-10), JSNum.fin 170, JSNum.fin 170, ""⟩ ∧
    (createGroupFromSelection exampleSettings exampleEnv).outcome =
      Outcome.success 3 ∧
    (createGroupFromSelection exampleSettings exampleEnv).saveRequested = true := by
  refine ⟨?_, ?_, ?_, ?_⟩ <;>
    norm_num [createGroupFromSelection, createGroupFromSelectionCaught,
      createGroupFromSelectionE, noFaults, calculateBoundingBoxF,
      exampleSettings, exampleEnv, exampleSelection,
      computeGroupRectangle, groupWidth, groupHeight, JSNum.sub, JSNum.neg,
      JSNum.mulTwo, JSNum.le,
      calculateBoundingBox, validFilter, isValidNode, finNode, JSVal.isNum,
      JSVal.gtZero, JSVal.toNum, JSNum.lt, rawMinX, rawMinY, rawMaxX, rawMaxY,
      JSNum.minList, JSNum.maxList, JSNum.min2, JSNum.max2, JSNum.add,
      JSNum.isFinite, List.filterMap, List.foldl, min_def, max_def]

/-- C8: the `Except`-modelled orchestration boundary turns every fault
into a normal return: `createGroupTop` always yields `ok` and the command
callback always yields a normal boolean; a caught fault surfaces as the
generic failure notice while the host effects performed before the throw
stand — faults thrown before `createGroupNode` record nothing created,
and a `requestSave` throw (possible only when the method exists) leaves
the already-created group recorded. -/
theorem claim8_no_exception_escapes :
    (∀ (s : Settings) (env : CanvasEnv) (f : Faults),
       ∃ r : RunResult, createGroupTop s env f = Except.ok r) ∧
    (∀ (checking : Bool) (s : Settings) (env : CanvasEnv) (f : Faults),
       ∃ b : Bool, checkCallback checking s env f = Except.ok b) ∧
    (∀ (s : Settings) (env : CanvasEnv) (f : Faults) (fault : CaughtFault),
       createGroupFromSelectionE s env f = Except.error fault →
       createGroupFromSelectionCaught s env f =
         ⟨Outcome.fault fault.message, fault.createdGroup, fault.saveCalled⟩ ∧
       outcomeNotice (Outcome.fault fault.message) =
         "Failed to create group from selection: " ++ fault.message) ∧
    (∀ (s : Settings) (env : CanvasEnv) (f : Faults) (fault : CaughtFault),
       createGroupFromSelectionE s env f = Except.error fault →
       (fault.createdGroup = none ∧ fault.saveCalled = false) ∨
       (∃ rect, fault.createdGroup = some rect ∧ fault.saveCalled = true ∧
          env.hasRequestSave = true ∧ f.saveFault = some fault.message)) := by
  refine ⟨?_, ?_, ?_, ?_⟩
  · intro s env f
    rcases hE : createGroupFromSelectionE s env f with fault | r
    · exact ⟨⟨Outcome.fault fault.message, fault.createdGroup, fault.saveCalled⟩,
        by simp [createGroupTop, hE]⟩
    · exact ⟨r, by simp [createGroupTop, hE]⟩
  · intro checking s env f
    rcases hB : checkCallbackBody checking s env f with fault | b
    · exact ⟨false, by simp [checkCallback, hB]⟩
    · exact ⟨b, by simp [checkCallback, hB]⟩
  · intro s env f fault h
    exact ⟨by simp [createGroupFromSelectionCaught, h], rfl⟩
  · intro s env f fault h
    simp only [createGroupFromSelectionE, calculateBoundingBoxF] at h
    split_ifs at h
    repeat' split at h
    all_goals
      first
        | (injection h with h; subst h;
           first
             | exact Or.inl ⟨rfl, rfl⟩
             | exact Or.inr ⟨_, rfl, rfl, by assumption, by assumption⟩)
        | (injection h)

/-- Witness for C8: a throwing `requestSave` on a well-formed two-node
selection is caught and surfaced as the generic failure notice, with the
group that was created before the throw still recorded. -/
theorem claim8_witness :
    createGroupFromSelectionCaught DEFAULT_SETTINGS twoNodeEnv saveFaults =
      ⟨Outcome.fault "savefail",
       some ⟨JSNum.fin (-20), JSNum.fin (-20), JSNum.fin 43, JSNum.fin 43, ""⟩,
       true⟩ ∧
    outcomeNotice (Outcome.fault "savefail") =
      "Failed to create group from selection: " ++ "savefail" :=
  claim8_no_exception_escapes.2.2.1 DEFAULT_SETTINGS twoNodeEnv saveFaults
    ⟨"savefail",
     some ⟨JSNum.fin (-20), JSNum.fin (-20), JSNum.fin 43, JSNum.fin 43, ""⟩,
     true⟩
    (by norm_num [createGroupFromSelectionE, calculateBoundingBoxF,
      DEFAULT_SETTINGS, twoNodeEnv, saveFaults,
      computeGroupRectangle, groupWidth, groupHeight, JSNum.sub, JSNum.neg,
      JSNum.mulTwo, JSNum.le,
      calculateBoundingBox, validFilter, isValidNode, finNode, JSVal.isNum,
      JSVal.gtZero, JSVal.toNum, JSNum.lt, rawMinX, rawMinY, rawMaxX, rawMaxY,
      JSNum.minList, JSNum.maxList, JSNum.min2, JSNum.max2, JSNum.add,
      JSNum.isFinite, List.filterMap, List.foldl, min_def, max_def])

/-- C9: in the store-passing translation every entry point returns its
node store unchanged — the source only reads node fields and never
mutates the selection or a node record. -/
theorem claim9_no_mutation :
    (∀ (σ : NodeStore) (i : Option NodeId), (isValidNodeS σ i).2 = σ) ∧
    (∀ (σ : NodeStore) (ids : List (Option NodeId)),
       (calculateBoundingBoxS σ ids).2 = σ) ∧
    (∀ (s : Settings) (envS : CanvasEnvS) (σ : NodeStore),
       (createGroupFromSelectionS s envS σ).2 = σ) :=
  ⟨fun _ _ => rfl, fun _ _ => rfl, fun _ _ _ => rfl⟩

